import Mathlib

/-!
Shallow embedding of src/text_to_speech.py: the WAV container synthesis
function `convert_to_wav` and the MIME parameter extraction function
`parse_audio_mime_type`. Python strings are modelled as lists of characters
(ASCII fragment of the Python semantics), byte strings as lists of natural
numbers, and a `struct.pack` call that would raise `struct.error` because a
field value does not fit its width is modelled as `none`.
-/

namespace TextToSpeech

/-- Audio parameters returned by `parse_audio_mime_type` (the Python dict with
keys `bits_per_sample` and `rate`; both values are always ints here). -/
structure AudioParams where
  bits_per_sample : Int
  rate : Int
  deriving DecidableEq

/-- Python `str.split(sep)` for a one-character separator: splits at every
occurrence, keeping empty parts, so the result is always nonempty. -/
def splitOnChar (sep : Char) : List Char → List (List Char)
  | [] => [[]]
  | c :: rest =>
    match splitOnChar sep rest with
    | [] => [[c]]
    | g :: gs => if c = sep then [] :: g :: gs else (c :: g) :: gs

/-- ASCII fragment of the whitespace set removed by Python `str.strip()`. -/
def isPySpace (c : Char) : Bool :=
  c = ' ' || c = '\t' || c = '\n' || c = '\r' || c = '\x0b' || c = '\x0c'

/-- Python `str.strip()` (ASCII whitespace on both ends). -/
def pyStrip (cs : List Char) : List Char :=
  ((cs.dropWhile isPySpace).reverse.dropWhile isPySpace).reverse

/-- Lowering of one character as Python `str.lower()` acts on ASCII. -/
def toLowerAscii (c : Char) : Char :=
  if 65 ≤ c.toNat ∧ c.toNat ≤ 90 then Char.ofNat (c.toNat + 32) else c

/-- Python `str.startswith`: first argument is the string, second the pattern. -/
def startsWithList : List Char → List Char → Bool
  | _, [] => true
  | [], _ :: _ => false
  | c :: cs, p :: ps => c = p && startsWithList cs ps

/-- The part of a string after the first occurrence of `sep`, which is what
Python `s.split(sep, 1)[1]` yields; `none` models the `IndexError` case in
which `sep` does not occur at all. -/
def afterFirstChar (sep : Char) : List Char → Option (List Char)
  | [] => none
  | c :: rest => if c = sep then some rest else afterFirstChar sep rest

/-- ASCII decimal digit test. -/
def isAsciiDigit (c : Char) : Bool := 48 ≤ c.toNat && c.toNat ≤ 57

/-- Digits of a Python integer literal after the first digit: the grammar is
digit, optionally separated by single underscores. -/
def pyIntDigitsRest (acc : Nat) : List Char → Option Nat
  | [] => some acc
  | '_' :: c :: rest =>
    if isAsciiDigit c then pyIntDigitsRest (acc * 10 + (c.toNat - 48)) rest else none
  | c :: rest =>
    if isAsciiDigit c then pyIntDigitsRest (acc * 10 + (c.toNat - 48)) rest else none

/-- Unsigned digit part accepted by Python `int`: at least one digit, with
underscores allowed only between digits. -/
def pyIntDigits : List Char → Option Nat
  | c :: rest => if isAsciiDigit c then pyIntDigitsRest (c.toNat - 48) rest else none
  | [] => none

/-- Python `int(s)` on an ASCII string: optional surrounding whitespace, an
optional sign, then a digit part; `none` models `ValueError`. -/
def pyInt (cs : List Char) : Option Int :=
  match pyStrip cs with
  | '+' :: rest => (pyIntDigits rest).map fun n => (n : Int)
  | '-' :: rest => (pyIntDigits rest).map fun n => -(n : Int)
  | rest => (pyIntDigits rest).map fun n => (n : Int)

/-- The pattern checked case-insensitively against each segment. -/
def rateKey : List Char := ['r', 'a', 't', 'e', '=']

/-- The pattern checked case-sensitively against each segment. -/
def audioLKey : List Char := ['a', 'u', 'd', 'i', 'o', '/', 'L']

/-- Loop body of `parse_audio_mime_type`: the two mutable variables
`bits_per_sample` and `rate` threaded through the `for param in parts` loop,
with the `try`/`except`/`pass` branches modelled by keeping the current
values when `pyInt` or `afterFirstChar` fails. -/
def parse_loop (bits rate : Int) : List (List Char) → AudioParams
  | [] => { bits_per_sample := bits, rate := rate }
  | param0 :: rest =>
    let param := pyStrip param0
    if startsWithList (param.map toLowerAscii) rateKey then
      match afterFirstChar '=' param with
      | some rate_str =>
        match pyInt rate_str with
        | some r => parse_loop bits r rest
        | none => parse_loop bits rate rest
      | none => parse_loop bits rate rest
    else if startsWithList param audioLKey then
      match afterFirstChar 'L' param with
      | some bits_str =>
        match pyInt bits_str with
        | some b => parse_loop b rate rest
        | none => parse_loop bits rate rest
      | none => parse_loop bits rate rest
    else parse_loop bits rate rest

/-- Python `parse_audio_mime_type`: defaults 16 and 24000, split the input on
the semicolon character, and let each stripped segment possibly overwrite one
of the two parameters. -/
def parse_audio_mime_type (mime_type : List Char) : AudioParams :=
  parse_loop 16 24000 (splitOnChar ';' mime_type)

/-- Character list of a Lean string literal, used to write the Python string
inputs of the theorems below. -/
def pyStr (s : String) : List Char := s.data

/-- Little-endian bytes produced by a `<I` field of `struct.pack` once the
value is known to be in range. -/
def u32leBytes (n : Nat) : List Nat :=
  [n % 256, n / 256 % 256, n / 65536 % 256, n / 16777216 % 256]

/-- Little-endian bytes produced by a `<H` field of `struct.pack` once the
value is known to be in range. -/
def u16leBytes (n : Nat) : List Nat :=
  [n % 256, n / 256 % 256]

/-- A `<I` field of `struct.pack`: `struct.error` (modelled as `none`) unless
the value satisfies `0 ≤ n < 2 ^ 32`. -/
def struct_pack_u32 (n : Int) : Option (List Nat) :=
  if 0 ≤ n ∧ n < 4294967296 then some (u32leBytes n.toNat) else none

/-- A `<H` field of `struct.pack`: `struct.error` unless `0 ≤ n < 2 ^ 16`. -/
def struct_pack_u16 (n : Int) : Option (List Nat) :=
  if 0 ≤ n ∧ n < 65536 then some (u16leBytes n.toNat) else none

/-- Python `convert_to_wav`: parse the MIME parameters, derive the header
fields exactly as the source does, pack the 44-byte RIFF/WAVE header with
format string `<4sI4s4sIHHIIHH4sI`, and prepend it to the audio data. -/
def convert_to_wav (audio_data : List Nat) (mime_type : List Char) :
    Option (List Nat) := do
  let parameters := parse_audio_mime_type mime_type
  let bits_per_sample := parameters.bits_per_sample
  let sample_rate := parameters.rate
  let num_channels : Int := 1
  let data_size : Int := (audio_data.length : Int)
  let bytes_per_sample := Int.fdiv bits_per_sample 8
  let block_align := num_channels * bytes_per_sample
  let byte_rate := sample_rate * block_align
  let chunk_size := 36 + data_size
  let f_chunk_size ← struct_pack_u32 chunk_size
  let f_sub1_size ← struct_pack_u32 16
  let f_audio_format ← struct_pack_u16 1
  let f_num_channels ← struct_pack_u16 num_channels
  let f_sample_rate ← struct_pack_u32 sample_rate
  let f_byte_rate ← struct_pack_u32 byte_rate
  let f_block_align ← struct_pack_u16 block_align
  let f_bits ← struct_pack_u16 bits_per_sample
  let f_data_size ← struct_pack_u32 data_size
  let header := [82, 73, 70, 70] ++ f_chunk_size ++ [87, 65, 86, 69] ++
    [102, 109, 116, 32] ++ f_sub1_size ++ f_audio_format ++ f_num_channels ++
    f_sample_rate ++ f_byte_rate ++ f_block_align ++ f_bits ++
    [100, 97, 116, 97] ++ f_data_size
  return header ++ audio_data

/-- Range conditions under which every `struct.pack` field computed by
`convert_to_wav` is in range, for parsed parameters `bits` and `rate` and a
payload of `dataSize` bytes. -/
def wavFieldsFit (bits rate : Int) (dataSize : Nat) : Prop :=
  36 + (dataSize : Int) < 4294967296 ∧
  0 ≤ rate ∧ rate < 4294967296 ∧
  0 ≤ rate * (1 * Int.fdiv bits 8) ∧ rate * (1 * Int.fdiv bits 8) < 4294967296 ∧
  0 ≤ 1 * Int.fdiv bits 8 ∧ 1 * Int.fdiv bits 8 < 65536 ∧
  0 ≤ bits ∧ bits < 65536 ∧
  (dataSize : Int) < 4294967296

instance (bits rate : Int) (dataSize : Nat) : Decidable (wavFieldsFit bits rate dataSize) := by
  unfold wavFieldsFit
  infer_instance

/-- The 44 header bytes that `convert_to_wav` produces when every field is in
range, written as one flat byte list. -/
def wavHeaderBytes (bits rate : Int) (dataSize : Nat) : List Nat :=
  82 :: 73 :: 70 :: 70 ::
  (36 + dataSize) % 256 :: (36 + dataSize) / 256 % 256 ::
    (36 + dataSize) / 65536 % 256 :: (36 + dataSize) / 16777216 % 256 ::
  87 :: 65 :: 86 :: 69 ::
  102 :: 109 :: 116 :: 32 ::
  16 :: 0 :: 0 :: 0 ::
  1 :: 0 ::
  1 :: 0 ::
  rate.toNat % 256 :: rate.toNat / 256 % 256 :: rate.toNat / 65536 % 256 ::
    rate.toNat / 16777216 % 256 ::
  (rate * (1 * Int.fdiv bits 8)).toNat % 256 ::
    (rate * (1 * Int.fdiv bits 8)).toNat / 256 % 256 ::
    (rate * (1 * Int.fdiv bits 8)).toNat / 65536 % 256 ::
    (rate * (1 * Int.fdiv bits 8)).toNat / 16777216 % 256 ::
  (1 * Int.fdiv bits 8).toNat % 256 :: (1 * Int.fdiv bits 8).toNat / 256 % 256 ::
  bits.toNat % 256 :: bits.toNat / 256 % 256 ::
  100 :: 97 :: 116 :: 97 ::
  dataSize % 256 :: dataSize / 256 % 256 :: dataSize / 65536 % 256 ::
    dataSize / 16777216 % 256 :: []

theorem option_bind_eq_some {α β : Type} {x : Option α} {f : α → Option β} {b : β} :
    x >>= f = some b ↔ ∃ a, x = some a ∧ f a = some b := by
  cases x with
  | none => exact ⟨fun h => Option.noConfusion h, fun ⟨a, ha, _⟩ => Option.noConfusion ha⟩
  | some a =>
    constructor
    · intro h
      exact ⟨a, rfl, h⟩
    · rintro ⟨a1, ha, hf⟩
      cases ha
      exact hf

theorem struct_pack_u32_eq_some {n : Int} {bs : List Nat} :
    struct_pack_u32 n = some bs ↔ (0 ≤ n ∧ n < 4294967296) ∧ bs = u32leBytes n.toNat := by
  unfold struct_pack_u32
  by_cases h : 0 ≤ n ∧ n < 4294967296
  · rw [if_pos h]
    exact ⟨fun hc => ⟨h, (Option.some_inj.mp hc).symm⟩, fun hc => by rw [hc.2]⟩
  · rw [if_neg h]
    exact ⟨fun hc => Option.noConfusion hc, fun hc => absurd hc.1 h⟩

theorem struct_pack_u16_eq_some {n : Int} {bs : List Nat} :
    struct_pack_u16 n = some bs ↔ (0 ≤ n ∧ n < 65536) ∧ bs = u16leBytes n.toNat := by
  unfold struct_pack_u16
  by_cases h : 0 ≤ n ∧ n < 65536
  · rw [if_pos h]
    exact ⟨fun hc => ⟨h, (Option.some_inj.mp hc).symm⟩, fun hc => by rw [hc.2]⟩
  · rw [if_neg h]
    exact ⟨fun hc => Option.noConfusion hc, fun hc => absurd hc.1 h⟩

/-- Characterization of a successful `convert_to_wav` call: it succeeds
exactly when every derived field fits its packed width, and then the output
is the 44 header bytes followed by the unchanged audio data. -/
theorem convert_to_wav_eq_some_iff (audio_data : List Nat) (mime_type : List Char)
    (out : List Nat) :
    convert_to_wav audio_data mime_type = some out ↔
      wavFieldsFit (parse_audio_mime_type mime_type).bits_per_sample
          (parse_audio_mime_type mime_type).rate audio_data.length ∧
        out = wavHeaderBytes (parse_audio_mime_type mime_type).bits_per_sample
            (parse_audio_mime_type mime_type).rate audio_data.length ++ audio_data := by
  have hlen : ((36 : Int) + (audio_data.length : Int)).toNat = 36 + audio_data.length := by
    omega
  have h16 : (16 : Int).toNat = 16 := rfl
  constructor
  · intro h
    simp only [convert_to_wav, option_bind_eq_some, struct_pack_u32_eq_some,
      struct_pack_u16_eq_some, Option.pure_def, Option.some.injEq] at h
    obtain ⟨a1, ⟨hc1, rfl⟩, a2, ⟨hc2, rfl⟩, a3, ⟨hc3, rfl⟩, a4, ⟨hc4, rfl⟩,
      a5, ⟨hc5, rfl⟩, a6, ⟨hc6, rfl⟩, a7, ⟨hc7, rfl⟩, a8, ⟨hc8, rfl⟩,
      a9, ⟨hc9, rfl⟩, hout⟩ := h
    refine ⟨⟨hc1.2, hc5.1, hc5.2, hc6.1, hc6.2, hc7.1, hc7.2, hc8.1, hc8.2, hc9.2⟩, ?_⟩
    rw [← hout]
    simp [wavHeaderBytes, u32leBytes, u16leBytes, hlen, h16, Int.toNat_natCast,
      Int.toNat_one]
  · rintro ⟨⟨h1, h2, h3, h4, h5, h6, h7, h8, h9, h10⟩, rfl⟩
    simp only [convert_to_wav, option_bind_eq_some, struct_pack_u32_eq_some,
      struct_pack_u16_eq_some, Option.pure_def, Option.some.injEq]
    refine ⟨_, ⟨⟨by omega, h1⟩, rfl⟩, _, ⟨⟨by omega, by omega⟩, rfl⟩,
      _, ⟨⟨by omega, by omega⟩, rfl⟩, _, ⟨⟨by omega, by omega⟩, rfl⟩,
      _, ⟨⟨h2, h3⟩, rfl⟩, _, ⟨⟨h4, h5⟩, rfl⟩, _, ⟨⟨h6, h7⟩, rfl⟩,
      _, ⟨⟨h8, h9⟩, rfl⟩, _, ⟨⟨by omega, h10⟩, rfl⟩, ?_⟩
    simp [wavHeaderBytes, u32leBytes, u16leBytes, hlen, h16, Int.toNat_natCast,
      Int.toNat_one]

/-- Little-endian 32-bit decode at a byte offset, reading 0 beyond the end. -/
def readU32le (bs : List Nat) (off : Nat) : Nat :=
  bs.getD off 0 + 256 * bs.getD (off + 1) 0 + 65536 * bs.getD (off + 2) 0 +
    16777216 * bs.getD (off + 3) 0

/-- Little-endian 16-bit decode at a byte offset, reading 0 beyond the end. -/
def readU16le (bs : List Nat) (off : Nat) : Nat :=
  bs.getD off 0 + 256 * bs.getD (off + 1) 0

/-- C1, counterexample: the claim quantifies over every MIME descriptor
string, but on the string "audio/L-8" the parsed bits-per-sample is negative,
the derived packed fields are negative, and `struct.pack` raises
`struct.error` (modelled as `none`), so no 44-byte-header output is
returned. -/
theorem C1_counterexample : convert_to_wav [] (pyStr "audio/L-8") = none := by decide

/-- C1, amended: whenever `convert_to_wav` returns at all, the result is a
44-byte header followed by the unchanged audio data: its length is 44 plus
the data length and its suffix from offset 44 onward equals the data byte for
byte; in particular empty data yields exactly 44 bytes. -/
theorem C1_header_prepended (audio_data : List Nat) (mime_type : List Char)
    (out : List Nat) (h : convert_to_wav audio_data mime_type = some out) :
    out.length = 44 + audio_data.length ∧ out.drop 44 = audio_data := by
  obtain ⟨fit, rfl⟩ := (convert_to_wav_eq_some_iff _ _ _).mp h
  refine ⟨?_, rfl⟩
  simp only [wavHeaderBytes, List.length_cons, List.length_append, List.length_nil]

/-- Byte list returned by the C1 witness call. -/
def c1Wav : List Nat :=
  [82, 73, 70, 70, 37, 0, 0, 0, 87, 65, 86, 69, 102, 109, 116, 32,
   16, 0, 0, 0, 1, 0, 1, 0, 192, 93, 0, 0, 128, 187, 0, 0, 2, 0, 16, 0,
   100, 97, 116, 97, 1, 0, 0, 0, 7]

/-- C1 witness: a concrete successful call with one payload byte. -/
theorem C1_header_prepended_witness :
    convert_to_wav [7] (pyStr "audio/L16;rate=24000") = some c1Wav ∧
      c1Wav.length = 44 + ([7] : List Nat).length ∧ c1Wav.drop 44 = [7] :=
  ⟨by decide, C1_header_prepended [7] (pyStr "audio/L16;rate=24000") c1Wav (by decide)⟩

/-- C2: the four chunk identifier fields of every successful output are the
ASCII strings RIFF (bytes 0 to 3), WAVE (bytes 8 to 11), fmt-space (bytes 12
to 15) and data (bytes 36 to 39). -/
theorem C2_chunk_ids (audio_data : List Nat) (mime_type : List Char) (out : List Nat)
    (h : convert_to_wav audio_data mime_type = some out) :
    out.take 4 = [82, 73, 70, 70] ∧ (out.drop 8).take 4 = [87, 65, 86, 69] ∧
      (out.drop 12).take 4 = [102, 109, 116, 32] ∧
      (out.drop 36).take 4 = [100, 97, 116, 97] := by
  obtain ⟨fit, rfl⟩ := (convert_to_wav_eq_some_iff _ _ _).mp h
  exact ⟨rfl, rfl, rfl, rfl⟩

/-- Byte list returned by the C2 witness call. -/
def c2Wav : List Nat :=
  [82, 73, 70, 70, 36, 0, 0, 0, 87, 65, 86, 69, 102, 109, 116, 32,
   16, 0, 0, 0, 1, 0, 1, 0, 192, 93, 0, 0, 128, 187, 0, 0, 2, 0, 16, 0,
   100, 97, 116, 97, 0, 0, 0, 0]

/-- C2 witness: a concrete successful call with empty data and empty MIME
string. -/
theorem C2_chunk_ids_witness :
    convert_to_wav [] (pyStr "") = some c2Wav ∧
      (c2Wav.take 4 = [82, 73, 70, 70] ∧ (c2Wav.drop 8).take 4 = [87, 65, 86, 69] ∧
        (c2Wav.drop 12).take 4 = [102, 109, 116, 32] ∧
        (c2Wav.drop 36).take 4 = [100, 97, 116, 97]) :=
  ⟨by decide, C2_chunk_ids [] (pyStr "") c2Wav (by decide)⟩

/-- C3: in every successful output, the ChunkSize field at bytes 4 to 7 holds
36 plus the data length, the Subchunk2Size field at bytes 40 to 43 holds the
data length, the Subchunk1Size field at bytes 16 to 19 holds 16, and the
AudioFormat field at bytes 20 to 21 holds 1, all little-endian. -/
theorem C3_size_fields (audio_data : List Nat) (mime_type : List Char) (out : List Nat)
    (h : convert_to_wav audio_data mime_type = some out) :
    readU32le out 4 = 36 + audio_data.length ∧
      readU32le out 40 = audio_data.length ∧
      readU32le out 16 = 16 ∧ readU16le out 20 = 1 := by
  obtain ⟨fit, rfl⟩ := (convert_to_wav_eq_some_iff _ _ _).mp h
  obtain ⟨h1, h2, h3, h4, h5, h6, h7, h8, h9, h10⟩ := fit
  refine ⟨?_, ?_, rfl, rfl⟩
  · show (36 + audio_data.length) % 256 + 256 * ((36 + audio_data.length) / 256 % 256) +
      65536 * ((36 + audio_data.length) / 65536 % 256) +
      16777216 * ((36 + audio_data.length) / 16777216 % 256) = 36 + audio_data.length
    omega
  · show audio_data.length % 256 + 256 * (audio_data.length / 256 % 256) +
      65536 * (audio_data.length / 65536 % 256) +
      16777216 * (audio_data.length / 16777216 % 256) = audio_data.length
    omega

/-- Byte list returned by the C3 witness call. -/
def c3Wav : List Nat :=
  [82, 73, 70, 70, 38, 0, 0, 0, 87, 65, 86, 69, 102, 109, 116, 32,
   16, 0, 0, 0, 1, 0, 1, 0, 1, 0, 0, 0, 2, 0, 0, 0, 2, 0, 16, 0,
   100, 97, 116, 97, 2, 0, 0, 0, 1, 2]

/-- C3 witness: a concrete successful call with two payload bytes. -/
theorem C3_size_fields_witness :
    convert_to_wav [1, 2] (pyStr "rate=1") = some c3Wav ∧
      (readU32le c3Wav 4 = 36 + ([1, 2] : List Nat).length ∧
        readU32le c3Wav 40 = ([1, 2] : List Nat).length ∧
        readU32le c3Wav 16 = 16 ∧ readU16le c3Wav 20 = 1) :=
  ⟨by decide, C3_size_fields [1, 2] (pyStr "rate=1") c3Wav (by decide)⟩

/-- C4: in every successful output the BlockAlign field at bytes 32 to 33
holds channelCount times the floor of bitsPerSample over 8, the ByteRate
field at bytes 28 to 31 holds sampleRate times that BlockAlign, and the
BitsPerSample field at bytes 34 to 35 holds the original untruncated parsed
bitsPerSample. -/
theorem C4_derived_fields (audio_data : List Nat) (mime_type : List Char) (out : List Nat)
    (h : convert_to_wav audio_data mime_type = some out) :
    ((readU16le out 32 : Nat) : Int) =
        1 * Int.fdiv (parse_audio_mime_type mime_type).bits_per_sample 8 ∧
      ((readU32le out 28 : Nat) : Int) =
        (parse_audio_mime_type mime_type).rate *
          (1 * Int.fdiv (parse_audio_mime_type mime_type).bits_per_sample 8) ∧
      ((readU16le out 34 : Nat) : Int) =
        (parse_audio_mime_type mime_type).bits_per_sample := by
  obtain ⟨fit, rfl⟩ := (convert_to_wav_eq_some_iff _ _ _).mp h
  obtain ⟨h1, h2, h3, h4, h5, h6, h7, h8, h9, h10⟩ := fit
  refine ⟨?_, ?_, ?_⟩
  · show ((((1 * Int.fdiv (parse_audio_mime_type mime_type).bits_per_sample 8).toNat % 256 +
      256 * ((1 * Int.fdiv (parse_audio_mime_type mime_type).bits_per_sample 8).toNat /
        256 % 256) : Nat)) : Int) = _
    omega
  · show (((((parse_audio_mime_type mime_type).rate *
        (1 * Int.fdiv (parse_audio_mime_type mime_type).bits_per_sample 8)).toNat % 256 +
      256 * (((parse_audio_mime_type mime_type).rate *
        (1 * Int.fdiv (parse_audio_mime_type mime_type).bits_per_sample 8)).toNat /
          256 % 256) +
      65536 * (((parse_audio_mime_type mime_type).rate *
        (1 * Int.fdiv (parse_audio_mime_type mime_type).bits_per_sample 8)).toNat /
          65536 % 256) +
      16777216 * (((parse_audio_mime_type mime_type).rate *
        (1 * Int.fdiv (parse_audio_mime_type mime_type).bits_per_sample 8)).toNat /
          16777216 % 256) : Nat)) : Int) = _
    omega
  · show ((((parse_audio_mime_type mime_type).bits_per_sample.toNat % 256 +
      256 * ((parse_audio_mime_type mime_type).bits_per_sample.toNat / 256 % 256) :
        Nat)) : Int) = _
    omega

/-- Byte list returned by the C4 witness call, with a bits-per-sample of 12
that is not a multiple of 8, so the stored BlockAlign is the truncated 1 while
the stored BitsPerSample stays 12. -/
def c4Wav : List Nat :=
  [82, 73, 70, 70, 36, 0, 0, 0, 87, 65, 86, 69, 102, 109, 116, 32,
   16, 0, 0, 0, 1, 0, 1, 0, 64, 31, 0, 0, 64, 31, 0, 0, 1, 0, 12, 0,
   100, 97, 116, 97, 0, 0, 0, 0]

/-- C4 witness: a concrete successful call with a truncating bit depth. -/
theorem C4_derived_fields_witness :
    convert_to_wav [] (pyStr "audio/L12;rate=8000") = some c4Wav ∧
      (((readU16le c4Wav 32 : Nat) : Int) =
          1 * Int.fdiv (parse_audio_mime_type (pyStr "audio/L12;rate=8000")).bits_per_sample 8 ∧
        ((readU32le c4Wav 28 : Nat) : Int) =
          (parse_audio_mime_type (pyStr "audio/L12;rate=8000")).rate *
            (1 * Int.fdiv (parse_audio_mime_type (pyStr "audio/L12;rate=8000")).bits_per_sample 8) ∧
        ((readU16le c4Wav 34 : Nat) : Int) =
          (parse_audio_mime_type (pyStr "audio/L12;rate=8000")).bits_per_sample) :=
  ⟨by decide, C4_derived_fields [] (pyStr "audio/L12;rate=8000") c4Wav (by decide)⟩

/-- C5: the NumChannels field at bytes 22 to 23 of every successful output is
1; no input produces anything but mono. -/
theorem C5_mono_channel (audio_data : List Nat) (mime_type : List Char) (out : List Nat)
    (h : convert_to_wav audio_data mime_type = some out) :
    readU16le out 22 = 1 := by
  obtain ⟨fit, rfl⟩ := (convert_to_wav_eq_some_iff _ _ _).mp h
  rfl

/-- Byte list returned by the C5 witness call. -/
def c5Wav : List Nat :=
  [82, 73, 70, 70, 37, 0, 0, 0, 87, 65, 86, 69, 102, 109, 116, 32,
   16, 0, 0, 0, 1, 0, 1, 0, 192, 93, 0, 0, 192, 93, 0, 0, 1, 0, 8, 0,
   100, 97, 116, 97, 1, 0, 0, 0, 9]

/-- C5 witness: a concrete successful call. -/
theorem C5_mono_channel_witness :
    convert_to_wav [9] (pyStr "audio/L8") = some c5Wav ∧ readU16le c5Wav 22 = 1 :=
  ⟨by decide, C5_mono_channel [9] (pyStr "audio/L8") c5Wav (by decide)⟩

/-- C6: decoding the SampleRate field at bytes 24 to 27, the BitsPerSample
field at bytes 34 to 35 and the Subchunk2Size field at bytes 40 to 43 of
every successful output reproduces exactly the parsed sample rate, the parsed
bits per sample and the data length that went in. -/
theorem C6_round_trip (audio_data : List Nat) (mime_type : List Char) (out : List Nat)
    (h : convert_to_wav audio_data mime_type = some out) :
    ((readU32le out 24 : Nat) : Int) = (parse_audio_mime_type mime_type).rate ∧
      ((readU16le out 34 : Nat) : Int) =
        (parse_audio_mime_type mime_type).bits_per_sample ∧
      readU32le out 40 = audio_data.length := by
  obtain ⟨fit, rfl⟩ := (convert_to_wav_eq_some_iff _ _ _).mp h
  obtain ⟨h1, h2, h3, h4, h5, h6, h7, h8, h9, h10⟩ := fit
  refine ⟨?_, ?_, ?_⟩
  · show ((((parse_audio_mime_type mime_type).rate.toNat % 256 +
      256 * ((parse_audio_mime_type mime_type).rate.toNat / 256 % 256) +
      65536 * ((parse_audio_mime_type mime_type).rate.toNat / 65536 % 256) +
      16777216 * ((parse_audio_mime_type mime_type).rate.toNat / 16777216 % 256) :
        Nat)) : Int) = _
    omega
  · show ((((parse_audio_mime_type mime_type).bits_per_sample.toNat % 256 +
      256 * ((parse_audio_mime_type mime_type).bits_per_sample.toNat / 256 % 256) :
        Nat)) : Int) = _
    omega
  · show audio_data.length % 256 + 256 * (audio_data.length / 256 % 256) +
      65536 * (audio_data.length / 65536 % 256) +
      16777216 * (audio_data.length / 16777216 % 256) = audio_data.length
    omega

/-- Byte list returned by the C6 witness call. -/
def c6Wav : List Nat :=
  [82, 73, 70, 70, 39, 0, 0, 0, 87, 65, 86, 69, 102, 109, 116, 32,
   16, 0, 0, 0, 1, 0, 1, 0, 128, 187, 0, 0, 128, 50, 2, 0, 3, 0, 24, 0,
   100, 97, 116, 97, 3, 0, 0, 0, 5, 6, 7]

/-- C6 witness: the spec example with 24 bits and rate 48000 round-trips. -/
theorem C6_round_trip_witness :
    convert_to_wav [5, 6, 7] (pyStr "audio/L24;rate=48000") = some c6Wav ∧
      (((readU32le c6Wav 24 : Nat) : Int) =
          (parse_audio_mime_type (pyStr "audio/L24;rate=48000")).rate ∧
        ((readU16le c6Wav 34 : Nat) : Int) =
          (parse_audio_mime_type (pyStr "audio/L24;rate=48000")).bits_per_sample ∧
        readU32le c6Wav 40 = ([5, 6, 7] : List Nat).length) :=
  ⟨by decide, C6_round_trip [5, 6, 7] (pyStr "audio/L24;rate=48000") c6Wav (by decide)⟩

/-- C7: on an input with no parseable parameter at all, and on one with an
empty rate value, `parse_audio_mime_type` degrades to the defaults 16 and
24000 rather than failing or producing zero. -/
theorem C7_defaults_on_malformed :
    parse_audio_mime_type (pyStr "garbage") = { bits_per_sample := 16, rate := 24000 } ∧
      parse_audio_mime_type (pyStr "audio/L16;rate=") =
        { bits_per_sample := 16, rate := 24000 } := by
  decide

/-- Per-segment update rule as the claim words it: a trimmed segment whose
lowercased form starts with the rate pattern may overwrite the rate with the
integer after the first equals sign, a segment starting with the literal
audio slash L pattern may overwrite the bits per sample with the integer
after the first L, and every other segment leaves the parameters unchanged. -/
def specSegmentStep (p : AudioParams) (segment : List Char) : AudioParams :=
  let t := pyStrip segment
  if startsWithList (t.map toLowerAscii) rateKey then
    match afterFirstChar '=' t with
    | some v =>
      match pyInt v with
      | some r => { p with rate := r }
      | none => p
    | none => p
  else if startsWithList t audioLKey then
    match afterFirstChar 'L' t with
    | some v =>
      match pyInt v with
      | some b => { p with bits_per_sample := b }
      | none => p
    | none => p
  else p

/-- Parser as the claim describes it: fold the per-segment rule over the
semicolon-separated segments starting from the defaults 16 and 24000. -/
def parseSpecDescription (mime_type : List Char) : AudioParams :=
  (splitOnChar ';' mime_type).foldl specSegmentStep { bits_per_sample := 16, rate := 24000 }

theorem parse_loop_cons (bits rate : Int) (seg : List Char) (rest : List (List Char)) :
    parse_loop bits rate (seg :: rest) =
      parse_loop (specSegmentStep { bits_per_sample := bits, rate := rate } seg).bits_per_sample
        (specSegmentStep { bits_per_sample := bits, rate := rate } seg).rate rest := by
  by_cases h1 : startsWithList ((pyStrip seg).map toLowerAscii) rateKey
  · cases h3 : afterFirstChar '=' (pyStrip seg) with
    | none => simp only [parse_loop, specSegmentStep, h1, if_true, h3]
    | some v =>
      cases h4 : pyInt v with
      | none => simp only [parse_loop, specSegmentStep, h1, if_true, h3, h4]
      | some r => simp only [parse_loop, specSegmentStep, h1, if_true, h3, h4]
  · by_cases h2 : startsWithList (pyStrip seg) audioLKey
    · cases h3 : afterFirstChar 'L' (pyStrip seg) with
      | none =>
        simp only [parse_loop, specSegmentStep, h1, h2, Bool.false_eq_true, if_false,
          if_true, h3]
      | some v =>
        cases h4 : pyInt v with
        | none =>
          simp only [parse_loop, specSegmentStep, h1, h2, Bool.false_eq_true, if_false,
            if_true, h3, h4]
        | some b =>
          simp only [parse_loop, specSegmentStep, h1, h2, Bool.false_eq_true, if_false,
            if_true, h3, h4]
    · simp only [parse_loop, specSegmentStep, h1, h2, Bool.false_eq_true, if_false]

theorem parse_loop_eq_foldl (segs : List (List Char)) :
    ∀ bits rate : Int, parse_loop bits rate segs =
      segs.foldl specSegmentStep { bits_per_sample := bits, rate := rate } := by
  induction segs with
  | nil => intro bits rate; rfl
  | cons seg rest ih =>
    intro bits rate
    rw [parse_loop_cons, List.foldl_cons, ih]

/-- C8: the source parser computes exactly the segment-by-segment rule stated
by the claim, and in particular the two quoted evaluations hold. -/
theorem C8_segment_rule :
    (∀ mime_type : List Char,
        parse_audio_mime_type mime_type = parseSpecDescription mime_type) ∧
      parse_audio_mime_type (pyStr "audio/L16;rate=24000") =
        { bits_per_sample := 16, rate := 24000 } ∧
      parse_audio_mime_type (pyStr "rate=44100") =
        { bits_per_sample := 16, rate := 44100 } := by
  refine ⟨fun mime_type => ?_, by decide, by decide⟩
  unfold parse_audio_mime_type parseSpecDescription
  exact parse_loop_eq_foldl _ 16 24000

/-- C9: `convert_to_wav` returns normally whenever the parsed parameters are
non-negative and fit their declared field widths, with bits per sample and
block align in 16 bits and sample rate, byte rate and chunk size in 32
bits. -/
theorem C9_total_when_fits (audio_data : List Nat) (mime_type : List Char)
    (hbits0 : 0 ≤ (parse_audio_mime_type mime_type).bits_per_sample)
    (hbits1 : (parse_audio_mime_type mime_type).bits_per_sample < 65536)
    (hba1 : 1 * Int.fdiv (parse_audio_mime_type mime_type).bits_per_sample 8 < 65536)
    (hrate0 : 0 ≤ (parse_audio_mime_type mime_type).rate)
    (hrate1 : (parse_audio_mime_type mime_type).rate < 4294967296)
    (hbr1 : (parse_audio_mime_type mime_type).rate *
        (1 * Int.fdiv (parse_audio_mime_type mime_type).bits_per_sample 8) < 4294967296)
    (hchunk : 36 + (audio_data.length : Int) < 4294967296) :
    (convert_to_wav audio_data mime_type).isSome = true := by
  have hba0 : 0 ≤ 1 * Int.fdiv (parse_audio_mime_type mime_type).bits_per_sample 8 := by
    have := Int.fdiv_nonneg hbits0 (by norm_num : (0 : Int) ≤ 8)
    omega
  have hbr0 : 0 ≤ (parse_audio_mime_type mime_type).rate *
      (1 * Int.fdiv (parse_audio_mime_type mime_type).bits_per_sample 8) :=
    mul_nonneg hrate0 hba0
  have h := (convert_to_wav_eq_some_iff audio_data mime_type _).mpr
    ⟨⟨hchunk, hrate0, hrate1, hbr0, hbr1, hba0, hba1, hbits0, hbits1, by omega⟩, rfl⟩
  rw [h]
  rfl

/-- C9 witness: the range hypotheses hold at a concrete input and the call
succeeds there. -/
theorem C9_total_when_fits_witness :
    (0 ≤ (parse_audio_mime_type (pyStr "rate=44100")).bits_per_sample ∧
        36 + (([1, 2, 3] : List Nat).length : Int) < 4294967296) ∧
      (convert_to_wav [1, 2, 3] (pyStr "rate=44100")).isSome = true :=
  ⟨⟨by decide, by decide⟩,
    C9_total_when_fits [1, 2, 3] (pyStr "rate=44100") (by decide) (by decide)
      (by decide) (by decide) (by decide) (by decide) (by decide)⟩

/-- C10: the parser happily returns negative parameters, and on such a
descriptor `convert_to_wav` fails with a packing error (modelled as `none`)
instead of degrading to defaults or producing output. -/
theorem C10_no_positivity_check :
    parse_audio_mime_type (pyStr "rate=-1") = { bits_per_sample := 16, rate := -1 } ∧
      parse_audio_mime_type (pyStr "audio/L-8") = { bits_per_sample := -8, rate := 24000 } ∧
      convert_to_wav [0, 1] (pyStr "rate=-1") = none ∧
      convert_to_wav [0, 1] (pyStr "audio/L-8") = none := by
  decide

end TextToSpeech
